import Mathlib

/-!
Shallow embedding of the grcal Gregorian calendar core (grcal.c / grcal.h).

Day offsets count days since 1582-10-15 (offset zero).  Internal
computations use a proleptic frame with day zero 1200-03-01 and
March-based years.  Machine integers are modelled as unbounded `Int`;
every division and remainder in the original executes on non-negative
operands, where C truncating division agrees with Euclidean division.
C `abort()` faults are modelled as `none` (for the helpers and the
checked-input functions) or as an explicit `fault` constructor (for the
composition function, which must never fault).
-/

namespace Grcal

/-- GRCAL_DAY_MAX from grcal.h: the maximum valid Gregorian day offset. -/
def GRCAL_DAY_MAX : Int := 3074323

/-- GRCAL_DAY_UNIX from grcal.h: the day offset of the Unix epoch. -/
def GRCAL_DAY_UNIX : Int := 141427

/-- Day index of 1582-10-15 in the proleptic frame with day zero 1200-03-01. -/
def DAY_OFFSET : Int := 139750

/-- Day offset of the first Monday. -/
def FIRST_MONDAY : Int := 3

/-- Days in a week. -/
def WEEK_LENGTH : Int := 7

/-- Months in a year. -/
def MONTH_COUNT : Int := 12

/-- Months that March-based years are offset from standard years. -/
def MONTH_OFFSET : Int := 2

/-- Days in a long month. -/
def LONG_MONTH_LENGTH : Int := 31

/-- Days in a short month. -/
def SHORT_MONTH_LENGTH : Int := 30

/-- Days in the variable month during a leap year. -/
def LEAP_MONTH_LENGTH : Int := 29

/-- Days in the variable month during a non-leap year. -/
def NONLEAP_MONTH_LENGTH : Int := 28

/-- Days in an aligned quad century. -/
def QC_DAYS : Int := 146097

/-- Days in an aligned century. -/
def C_DAYS : Int := 36524

/-- Days in an aligned quad year. -/
def Q_DAYS : Int := 1461

/-- Days in a year, not counting the quad-year leap day. -/
def Y_DAYS : Int := 365

/-- Days in a leap year. -/
def Y_LEAP_DAYS : Int := 366

/-- Centuries in a quad century. -/
def QC_C_COUNT : Int := 4

/-- Quad years in a century. -/
def C_Q_COUNT : Int := 25

/-- Years in a quad year. -/
def Q_Y_COUNT : Int := 4

/-- Years in a quad century. -/
def QC_YEARS : Int := 400

/-- Years in a century. -/
def C_YEARS : Int := 100

/-- Years in a quad year. -/
def Q_YEARS : Int := 4

/-- The year of day offset zero in the proleptic frame. -/
def BASE_YEAR : Int := 1200

/-- The last supported Gregorian year. -/
def MAX_YEAR : Int := 9999

/-- The pattern of March-based month lengths (m_pattern in grcal.c). -/
def m_pattern : String := "+-+-++-+-++*"

/-- isLeapYear from grcal.c: Gregorian leap-year predicate on January-based
years; the C function aborts when the year is less than one (`none`). -/
def isLeapYear (y : Int) : Option Bool :=
  if y < 1 then none
  else some (decide (y % 400 = 0) || (decide (y % 4 = 0) && decide (y % 100 ≠ 0)))

/-- monthLength from grcal.c: length of the month at a March-based index,
zero meaning variable length; out-of-range index aborts (`none`). -/
def monthLength (i : Int) : Option Int :=
  if i < 0 ∨ i ≥ MONTH_COUNT then none
  else
    let c := (m_pattern.toList).getD i.toNat ' '
    if c = '+' then some LONG_MONTH_LENGTH
    else if c = '-' then some SHORT_MONTH_LENGTH
    else if c = '*' then some 0
    else none

/-- The month-walk loop of grcal_offsetToDate: starting from March-based
month index `month` with `d` days remaining, advance whole months while
possible.  The fuel bound only rules out infinite regress; thirteen steps
always suffice because `monthLength` aborts at index twelve. -/
def monthWalk : Nat → Int → Int → Option (Int × Int)
  | 0, _, _ => none
  | fuel + 1, month, d =>
    if d > 0 then
      match monthLength month with
      | none => none
      | some ml =>
        if ml = 0 ∨ d < ml then some (month, d)
        else monthWalk fuel (month + 1) (d - ml)
    else some (month, d)

/-- grcal_offsetToDate from grcal.c: convert a day offset in
[0, GRCAL_DAY_MAX] to a (year, month, dayOfMonth) triple; an out-of-range
offset aborts (`none`). -/
def grcal_offsetToDate (offs : Int) : Option (Int × Int × Int) :=
  if offs < 0 ∨ offs > GRCAL_DAY_MAX then none
  else
    let o1 := offs + DAY_OFFSET
    let qc := o1 / QC_DAYS
    let o2 := o1 % QC_DAYS
    let c0 := o2 / C_DAYS
    let o3 := o2 % C_DAYS
    let q0 := o3 / Q_DAYS
    let o4 := o3 % Q_DAYS
    let y0 := o4 / Y_DAYS
    let d0 := o4 % Y_DAYS
    let c1 := if c0 = QC_C_COUNT then QC_C_COUNT - 1 else c0
    let q1 := if c0 = QC_C_COUNT then C_Q_COUNT - 1 else q0
    let y1 := if c0 = QC_C_COUNT then Q_Y_COUNT - 1 else y0
    let d1 := if c0 = QC_C_COUNT then Y_LEAP_DAYS - 1 else d0
    let y2 := if y1 = Q_Y_COUNT then Q_Y_COUNT - 1 else y1
    let d2 := if y1 = Q_Y_COUNT then Y_LEAP_DAYS - 1 else d1
    let year0 := qc * QC_YEARS + c1 * C_YEARS + q1 * Q_YEARS + y2 + BASE_YEAR
    match monthWalk 13 0 d2 with
    | none => none
    | some md =>
      let day := md.2 + 1
      let m1 := md.1 + MONTH_OFFSET
      let year1 := if m1 ≥ MONTH_COUNT then year0 + 1 else year0
      let m2 := if m1 ≥ MONTH_COUNT then m1 - MONTH_COUNT else m1
      some (year1, m2 + 1, day)

/-- The month-summing loop of grcal_dateToOffset: total length of the
March-based months with index below `x`. -/
def sumMonthsBefore : Nat → Option Int
  | 0 => some 0
  | x + 1 =>
    match sumMonthsBefore x, monthLength x with
    | some s, some ml => some (s + ml)
    | _, _ => none

/-- Observable outcome of grcal_dateToOffset: success with an offset,
validation failure (C return value zero), or a fault (an `abort()` inside
a helper, which the code never actually reaches). -/
inductive DTO where
  | ok (offs : Int)
  | fail
  | fault
deriving DecidableEq, Repr

/-- grcal_dateToOffset from grcal.c: validate a (year, month, dayOfMonth)
triple and convert it to a day offset. -/
def grcal_dateToOffset (year month dayofmonth : Int) : DTO :=
  if year ≤ BASE_YEAR ∨ month < 1 ∨ dayofmonth < 1 then .fail
  else if year > MAX_YEAR ∨ month > MONTH_COUNT then .fail
  else
    let dom := dayofmonth - 1
    let m0 := month - 1 - MONTH_OFFSET
    let y0 := if m0 < 0 then year - 1 else year
    let m1 := if m0 < 0 then m0 + MONTH_COUNT else m0
    match monthLength m1 with
    | none => .fault
    | some ml0 =>
      match (if ml0 = 0 then
               match isLeapYear (y0 + 1) with
               | none => none
               | some b =>
                 some (if b then LEAP_MONTH_LENGTH else NONLEAP_MONTH_LENGTH)
             else some ml0) with
      | none => .fault
      | some month_len =>
        if dom ≥ month_len then .fail
        else
          let ya := y0 - BASE_YEAR
          let qc := ya / QC_YEARS
          let yb := ya % QC_YEARS
          let c := yb / C_YEARS
          let yc := yb % C_YEARS
          let q := yc / Q_YEARS
          let yd := yc % Q_YEARS
          let offs0 := qc * QC_DAYS + c * C_DAYS + q * Q_DAYS + yd * Y_DAYS
          match sumMonthsBefore m1.toNat with
          | none => .fault
          | some s =>
            let offs1 := offs0 + s + dom - DAY_OFFSET
            if offs1 < 0 ∨ offs1 > GRCAL_DAY_MAX then .fail
            else .ok offs1

/-- The calling convention of grcal_dateToOffset: `hasPtr` tells whether a
destination for the offset was supplied (a non-NULL pOffs), `mem` is the
value stored at that destination before the call.  The result is the C
return value paired with the value stored at the destination after the
call; a fault is `none`. -/
def grcal_dateToOffset_call (hasPtr : Bool) (mem : Int)
    (year month dayofmonth : Int) : Option (Int × Int) :=
  match grcal_dateToOffset year month dayofmonth with
  | .ok offs => some (1, if hasPtr then offs else mem)
  | .fail => some (0, mem)
  | .fault => none

/-- grcal_weekday from grcal.c: weekday (1 = Monday .. 7 = Sunday) of a
day offset in [0, GRCAL_DAY_MAX]; an out-of-range offset aborts (`none`). -/
def grcal_weekday (offs : Int) : Option Int :=
  if offs < 0 ∨ offs > GRCAL_DAY_MAX then none
  else
    let o := if offs < FIRST_MONDAY then offs + WEEK_LENGTH else offs
    some ((o - FIRST_MONDAY) % WEEK_LENGTH + 1)

/-- Pure table form of `monthLength` on the valid index range: the
March-based month lengths 31 30 31 30 31 31 30 31 30 31 31 and 0 for the
variable final month. -/
def mlen (m : Int) : Int :=
  if m = 1 ∨ m = 3 ∨ m = 6 ∨ m = 8 then 30
  else if m = 11 then 0
  else 31

/-- Days before the start of March-based month `m` within a March-based
year (the value accumulated by the month-summing loop). -/
def cumDays (m : Int) : Int :=
  if m ≤ 0 then 0
  else if m = 1 then 31
  else if m = 2 then 61
  else if m = 3 then 92
  else if m = 4 then 122
  else if m = 5 then 153
  else if m = 6 then 184
  else if m = 7 then 214
  else if m = 8 then 245
  else if m = 9 then 275
  else if m = 10 then 306
  else 337

/-- The resolved length of standard month `month` in standard year `year`:
what grcal_dateToOffset checks the day of month against. -/
def monthLenResolved (year month : Int) : Int :=
  if month = 2 then
    (if year % 400 = 0 ∨ (year % 4 = 0 ∧ year % 100 ≠ 0) then 29 else 28)
  else mlen (if month - 1 - MONTH_OFFSET < 0 then month - 1 - MONTH_OFFSET + MONTH_COUNT
             else month - 1 - MONTH_OFFSET)

/-- The arithmetic of grcal_dateToOffset with the validation stripped out:
the day offset that the composition path computes for the given triple. -/
def rawOffset (year month dayofmonth : Int) : Int :=
  let dom := dayofmonth - 1
  let m0 := month - 1 - MONTH_OFFSET
  let y0 := if m0 < 0 then year - 1 else year
  let m1 := if m0 < 0 then m0 + MONTH_COUNT else m0
  let ya := y0 - BASE_YEAR
  let qc := ya / QC_YEARS
  let yb := ya % QC_YEARS
  let c := yb / C_YEARS
  let yc := yb % C_YEARS
  let q := yc / Q_YEARS
  let yd := yc % Q_YEARS
  qc * QC_DAYS + c * C_DAYS + q * Q_DAYS + yd * Y_DAYS + cumDays m1 + dom - DAY_OFFSET

lemma monthLength_eq (m : Int) (h0 : 0 ≤ m) (h1 : m ≤ 11) :
    monthLength m = some (mlen m) := by
  interval_cases m <;> decide

lemma sumMonthsBefore_eq (m : Int) (h0 : 0 ≤ m) (h1 : m ≤ 11) :
    sumMonthsBefore m.toNat = some (cumDays m) := by
  interval_cases m <;> decide

lemma isLeapYear_eq (y : Int) (h : 1 ≤ y) :
    isLeapYear y =
      some (decide (y % 400 = 0) || (decide (y % 4 = 0) && decide (y % 100 ≠ 0))) := by
  unfold isLeapYear
  rw [if_neg (by omega)]

lemma cumDays_mlen (m : Int) (h0 : 0 ≤ m) (h1 : m ≤ 10) :
    cumDays (m + 1) = cumDays m + mlen m := by
  interval_cases m <;> decide

lemma cumDays_nonneg (m : Int) (h0 : 0 ≤ m) (h1 : m ≤ 11) : 0 ≤ cumDays m := by
  interval_cases m <;> decide

lemma cumDays_last (m : Int) (h0 : 0 ≤ m) (h1 : m ≤ 11) : cumDays m ≤ 337 := by
  interval_cases m <;> decide

/-- Running the month walk from index `m` with `d` days left lands on a
month index and remainder that partition the day-in-year count: the
remainder is the day offset within the final month. -/
lemma monthWalk_run : ∀ (fuel : Nat) (m d : Int), 0 ≤ m → m ≤ 11 → 0 ≤ d →
    cumDays m + d ≤ 365 → 11 < m + fuel →
    ∃ m' d', monthWalk fuel m d = some (m', d') ∧ m ≤ m' ∧ m' ≤ 11 ∧ 0 ≤ d' ∧
      cumDays m' + d' = cumDays m + d ∧ (m' = 11 ∨ d' < mlen m') := by
  intro fuel
  induction fuel with
  | zero =>
    intro m d h0 h1 _ _ hf
    omega
  | succ fuel ih =>
    intro m d h0 h1 hd hsum hf
    rw [monthWalk]
    by_cases hdpos : d > 0
    · rw [if_pos hdpos, monthLength_eq m h0 h1]
      by_cases hstop : mlen m = 0 ∨ d < mlen m
      · refine ⟨m, d, ?_, le_refl m, h1, hd, rfl, ?_⟩
        · simp only [if_pos hstop]
        · rcases hstop with h | h
          · left
            have : 0 ≤ m ∧ m ≤ 11 := ⟨h0, h1⟩
            revert h
            interval_cases m <;> simp [mlen]
          · right; exact h
      · simp only [if_neg hstop]
        push_neg at hstop
        have hm11 : m ≤ 10 := by
          by_contra hc
          have hm : m = 11 := by omega
          subst hm
          simp [mlen] at hstop
        have hstep := cumDays_mlen m h0 hm11
        have := ih (m + 1) (d - mlen m) (by omega) (by omega)
          (by omega) (by omega) (by omega)
        obtain ⟨m', d', heq, hmm, hm', hd', hsum', hstop'⟩ := this
        exact ⟨m', d', heq, by omega, hm', hd', by omega, hstop'⟩
    · rw [if_neg hdpos]
      refine ⟨m, d, rfl, le_refl m, h1, hd, rfl, ?_⟩
      have hd0 : d = 0 := by omega
      by_cases hm : m = 11
      · left; exact hm
      · right
        have hm10 : m ≤ 10 := by omega
        have : 1 ≤ mlen m := by
          interval_cases m <;> decide
        omega

/-- Value table for `cumDays` and `mlen` on the valid index range, in a
form that arithmetic automation can case on. -/
lemma cumDays_mem (M : Int) (h0 : 0 ≤ M) (h1 : M ≤ 11) :
    (M = 0 ∧ cumDays M = 0 ∧ mlen M = 31) ∨
    (M = 1 ∧ cumDays M = 31 ∧ mlen M = 30) ∨
    (M = 2 ∧ cumDays M = 61 ∧ mlen M = 31) ∨
    (M = 3 ∧ cumDays M = 92 ∧ mlen M = 30) ∨
    (M = 4 ∧ cumDays M = 122 ∧ mlen M = 31) ∨
    (M = 5 ∧ cumDays M = 153 ∧ mlen M = 31) ∨
    (M = 6 ∧ cumDays M = 184 ∧ mlen M = 30) ∨
    (M = 7 ∧ cumDays M = 214 ∧ mlen M = 31) ∨
    (M = 8 ∧ cumDays M = 245 ∧ mlen M = 30) ∨
    (M = 9 ∧ cumDays M = 275 ∧ mlen M = 31) ∨
    (M = 10 ∧ cumDays M = 306 ∧ mlen M = 31) ∨
    (M = 11 ∧ cumDays M = 337 ∧ mlen M = 0) := by
  interval_cases M <;> decide

lemma cumDays_zero : cumDays 0 = 0 := by decide

/-- Recovering the canonical mixed-radix digits (quad centuries, centuries,
quad years, years) of a March-based year offset. -/
lemma digits_recover (v a b q w : Int) (hv : v = 400 * a + 100 * b + 4 * q + w)
    (hb0 : 0 ≤ b) (hb : b ≤ 3) (hq0 : 0 ≤ q) (hq : q ≤ 24) (hw0 : 0 ≤ w) (hw : w ≤ 3) :
    v / 400 = a ∧ v % 400 / 100 = b ∧ v % 400 % 100 / 4 = q ∧
    v % 4 = w ∧ v % 100 = 4 * q + w ∧ v % 400 = 100 * b + 4 * q + w := by
  omega

/-- Characterization of grcal_offsetToDate on the valid range: the output
is the standard-form date of a March-based year offset `yoff`, month index
`M` and day-in-month `D0`, where the canonical digits of `yoff` and the
day-in-year count reassemble the shifted input offset, and a 366th
day-in-year occurs only in a year whose following January-based year is a
Gregorian leap year. -/
lemma otd_char (o : Int) (h0 : 0 ≤ o) (h1 : o ≤ 3074323) :
    ∃ yoff M D0 y mo dy,
      grcal_offsetToDate o = some (y, mo, dy) ∧
      y = 1200 + yoff + (if 10 ≤ M then 1 else 0) ∧
      mo = (if 10 ≤ M then M - 9 else M + 3) ∧
      dy = D0 + 1 ∧
      0 ≤ yoff ∧ yoff ≤ 8799 ∧ 0 ≤ M ∧ M ≤ 11 ∧ 0 ≤ D0 ∧
      (M = 11 ∨ D0 < mlen M) ∧ cumDays M + D0 ≤ 365 ∧
      o + 139750 = 365 * yoff + 97 * (yoff / 400) + 24 * (yoff % 400 / 100) +
        yoff % 400 % 100 / 4 + cumDays M + D0 ∧
      (cumDays M + D0 = 365 → yoff % 4 = 3 ∧ (yoff % 100 = 99 → yoff % 400 = 399)) := by
  unfold grcal_offsetToDate
  simp only [GRCAL_DAY_MAX, DAY_OFFSET, QC_DAYS, C_DAYS, Q_DAYS, Y_DAYS, Y_LEAP_DAYS,
    QC_C_COUNT, C_Q_COUNT, Q_Y_COUNT, QC_YEARS, C_YEARS, Q_YEARS, BASE_YEAR,
    MONTH_COUNT, MONTH_OFFSET]
  rw [if_neg (by omega)]
  by_cases hc : (o + 139750) % 146097 / 36524 = 4
  · simp only [if_pos hc]
    rw [if_neg (by norm_num)]
    rw [if_neg (by norm_num)]
    obtain ⟨M, D0, hwalk, hMlo, hMhi, hD0, hsum, hstop⟩ :=
      monthWalk_run 13 0 (366 - 1) (by norm_num) (by norm_num) (by norm_num)
        (by norm_num [cumDays]) (by norm_num)
    have hmem := cumDays_mem M hMlo hMhi
    have hc0 := cumDays_zero
    have hM11 : M = 11 := by omega
    subst hM11
    have hD28 : D0 = 28 := by omega
    subst hD28
    rw [hwalk]
    simp only [ge_iff_le]
    rw [if_pos (by norm_num : (12 : Int) ≤ 11 + 2)]
    rw [if_pos (by norm_num : (12 : Int) ≤ 11 + 2)]
    have hdig := digits_recover (400 * ((o + 139750) / 146097) + 399)
      ((o + 139750) / 146097) 3 24 3 (by omega) (by omega) (by omega) (by omega)
      (by omega) (by omega) (by omega)
    refine ⟨400 * ((o + 139750) / 146097) + 399, 11, 28, _, _, _, rfl, ?_, ?_, rfl,
      by omega, by omega, by norm_num, by norm_num, by norm_num,
      by norm_num [mlen], by norm_num [cumDays], by omega, by omega⟩
    · split_ifs <;> omega
    · split_ifs <;> omega
  · simp only [if_neg hc]
    by_cases hy : (o + 139750) % 146097 % 36524 % 1461 / 365 = 4
    · simp only [if_pos hy]
      obtain ⟨M, D0, hwalk, hMlo, hMhi, hD0, hsum, hstop⟩ :=
        monthWalk_run 13 0 (366 - 1) (by norm_num) (by norm_num) (by norm_num)
          (by norm_num [cumDays]) (by norm_num)
      have hmem := cumDays_mem M hMlo hMhi
      have hc0 := cumDays_zero
      have hM11 : M = 11 := by omega
      subst hM11
      have hD28 : D0 = 28 := by omega
      subst hD28
      rw [hwalk]
      simp only [ge_iff_le]
      rw [if_pos (by norm_num : (12 : Int) ≤ 11 + 2)]
      rw [if_pos (by norm_num : (12 : Int) ≤ 11 + 2)]
      have hdig := digits_recover (400 * ((o + 139750) / 146097) +
        100 * ((o + 139750) % 146097 / 36524) +
        4 * ((o + 139750) % 146097 % 36524 / 1461) + 3)
        ((o + 139750) / 146097) ((o + 139750) % 146097 / 36524)
        ((o + 139750) % 146097 % 36524 / 1461) 3 (by omega) (by omega) (by omega)
        (by omega) (by omega) (by omega) (by omega)
      refine ⟨400 * ((o + 139750) / 146097) + 100 * ((o + 139750) % 146097 / 36524) +
        4 * ((o + 139750) % 146097 % 36524 / 1461) + 3, 11, 28, _, _, _, rfl, ?_, ?_, rfl,
        by omega, by omega, by norm_num, by norm_num, by norm_num,
        by norm_num [mlen], by norm_num [cumDays], by omega, by omega⟩
      · split_ifs <;> omega
      · split_ifs <;> omega
    · simp only [if_neg hy]
      obtain ⟨M, D0, hwalk, hMlo, hMhi, hD0, hsum, hstop⟩ :=
        monthWalk_run 13 0 ((o + 139750) % 146097 % 36524 % 1461 % 365)
          (by norm_num) (by norm_num) (by omega) (by rw [cumDays_zero]; omega)
          (by norm_num)
      rw [hwalk]
      simp only [ge_iff_le]
      have hmem := cumDays_mem M hMlo hMhi
      have hc0 := cumDays_zero
      by_cases hM10 : 10 ≤ M
      · rw [if_pos (show (12 : Int) ≤ M + 2 by omega)]
        rw [if_pos (show (12 : Int) ≤ M + 2 by omega)]
        have hdig := digits_recover (400 * ((o + 139750) / 146097) +
          100 * ((o + 139750) % 146097 / 36524) +
          4 * ((o + 139750) % 146097 % 36524 / 1461) +
          (o + 139750) % 146097 % 36524 % 1461 / 365)
          ((o + 139750) / 146097) ((o + 139750) % 146097 / 36524)
          ((o + 139750) % 146097 % 36524 / 1461)
          ((o + 139750) % 146097 % 36524 % 1461 / 365) (by omega) (by omega) (by omega)
          (by omega) (by omega) (by omega) (by omega)
        refine ⟨400 * ((o + 139750) / 146097) + 100 * ((o + 139750) % 146097 / 36524) +
          4 * ((o + 139750) % 146097 % 36524 / 1461) +
          (o + 139750) % 146097 % 36524 % 1461 / 365, M, D0, _, _, _, rfl, ?_, ?_, rfl,
          by omega, by omega, hMlo, hMhi, hD0, hstop, by omega, by omega, by omega⟩
        · split_ifs <;> omega
        · split_ifs <;> omega
      · rw [if_neg (show ¬ (12 : Int) ≤ M + 2 by omega)]
        rw [if_neg (show ¬ (12 : Int) ≤ M + 2 by omega)]
        have hdig := digits_recover (400 * ((o + 139750) / 146097) +
          100 * ((o + 139750) % 146097 / 36524) +
          4 * ((o + 139750) % 146097 % 36524 / 1461) +
          (o + 139750) % 146097 % 36524 % 1461 / 365)
          ((o + 139750) / 146097) ((o + 139750) % 146097 / 36524)
          ((o + 139750) % 146097 % 36524 / 1461)
          ((o + 139750) % 146097 % 36524 % 1461 / 365) (by omega) (by omega) (by omega)
          (by omega) (by omega) (by omega) (by omega)
        refine ⟨400 * ((o + 139750) / 146097) + 100 * ((o + 139750) % 146097 / 36524) +
          4 * ((o + 139750) % 146097 % 36524 / 1461) +
          (o + 139750) % 146097 % 36524 % 1461 / 365, M, D0, _, _, _, rfl, ?_, ?_, rfl,
          by omega, by omega, hMlo, hMhi, hD0, hstop, by omega, by omega, by omega⟩
        · split_ifs <;> omega
        · split_ifs <;> omega

/-- Master characterization of grcal_dateToOffset on inputs passing the
basic range checks: the remaining behaviour is the day-of-month bound
check against the resolved month length, then the offset range check on
the raw computed offset. -/
lemma dto_main (y m d : Int) (h1 : 1200 < y) (h2 : y ≤ 9999) (h3 : 1 ≤ m)
    (h4 : m ≤ 12) (h5 : 1 ≤ d) :
    grcal_dateToOffset y m d =
      if monthLenResolved y m < d then .fail
      else if rawOffset y m d < 0 ∨ rawOffset y m d > 3074323 then .fail
      else .ok (rawOffset y m d) := by
  interval_cases m
  · unfold grcal_dateToOffset rawOffset monthLenResolved
    simp only [GRCAL_DAY_MAX, DAY_OFFSET, QC_DAYS, C_DAYS, Q_DAYS, Y_DAYS,
      QC_YEARS, C_YEARS, Q_YEARS, BASE_YEAR, MAX_YEAR, MONTH_COUNT, MONTH_OFFSET,
      LEAP_MONTH_LENGTH, NONLEAP_MONTH_LENGTH]
    rw [if_neg (by omega), if_neg (by omega)]
    norm_num only
    simp only [if_true, if_false]
    rw [(by decide : monthLength (10 : Int) = some (31 : Int))]
    norm_num only
    try simp only [if_true, if_false, ite_true, ite_false]
    rw [(by decide : mlen (10 : Int) = (31 : Int))]
    rw [(by decide : cumDays (10 : Int) = (306 : Int))]
    rw [(by decide : sumMonthsBefore (Int.toNat (10 : Int)) = some (306 : Int))]
    norm_num only
    try simp only [if_true, if_false, ite_true, ite_false]
    split_ifs <;> first | rfl | omega | (exfalso; omega) | (simp only [DTO.ok.injEq]; omega)
  · unfold grcal_dateToOffset rawOffset monthLenResolved
    simp only [GRCAL_DAY_MAX, DAY_OFFSET, QC_DAYS, C_DAYS, Q_DAYS, Y_DAYS,
      QC_YEARS, C_YEARS, Q_YEARS, BASE_YEAR, MAX_YEAR, MONTH_COUNT, MONTH_OFFSET,
      LEAP_MONTH_LENGTH, NONLEAP_MONTH_LENGTH]
    rw [if_neg (by omega), if_neg (by omega)]
    norm_num only
    simp only [if_true, if_false]
    rw [(by decide : monthLength (11 : Int) = some (0 : Int))]
    norm_num only
    try simp only [if_true, if_false, ite_true, ite_false]
    first
    | rw [isLeapYear_eq y (by omega)]
    | rw [show y - 1 + 1 = y from by ring, isLeapYear_eq y (by omega)]
    simp only [Bool.or_eq_true, Bool.and_eq_true, decide_eq_true_eq]
    rw [(by decide : cumDays (11 : Int) = (337 : Int))]
    rw [(by decide : sumMonthsBefore (Int.toNat (11 : Int)) = some (337 : Int))]
    norm_num only
    try simp only [if_true, if_false, ite_true, ite_false]
    split_ifs <;> first | rfl | omega | (exfalso; omega) | (simp only [DTO.ok.injEq]; omega)
  · unfold grcal_dateToOffset rawOffset monthLenResolved
    simp only [GRCAL_DAY_MAX, DAY_OFFSET, QC_DAYS, C_DAYS, Q_DAYS, Y_DAYS,
      QC_YEARS, C_YEARS, Q_YEARS, BASE_YEAR, MAX_YEAR, MONTH_COUNT, MONTH_OFFSET,
      LEAP_MONTH_LENGTH, NONLEAP_MONTH_LENGTH]
    rw [if_neg (by omega), if_neg (by omega)]
    norm_num only
    simp only [if_true, if_false]
    rw [(by decide : monthLength (0 : Int) = some (31 : Int))]
    norm_num only
    try simp only [if_true, if_false, ite_true, ite_false]
    rw [(by decide : mlen (0 : Int) = (31 : Int))]
    rw [(by decide : cumDays (0 : Int) = (0 : Int))]
    rw [(by decide : sumMonthsBefore (Int.toNat (0 : Int)) = some (0 : Int))]
    norm_num only
    try simp only [if_true, if_false, ite_true, ite_false]
    split_ifs <;> first | rfl | omega | (exfalso; omega) | (simp only [DTO.ok.injEq]; omega)
  · unfold grcal_dateToOffset rawOffset monthLenResolved
    simp only [GRCAL_DAY_MAX, DAY_OFFSET, QC_DAYS, C_DAYS, Q_DAYS, Y_DAYS,
      QC_YEARS, C_YEARS, Q_YEARS, BASE_YEAR, MAX_YEAR, MONTH_COUNT, MONTH_OFFSET,
      LEAP_MONTH_LENGTH, NONLEAP_MONTH_LENGTH]
    rw [if_neg (by omega), if_neg (by omega)]
    norm_num only
    simp only [if_true, if_false]
    rw [(by decide : monthLength (1 : Int) = some (30 : Int))]
    norm_num only
    try simp only [if_true, if_false, ite_true, ite_false]
    rw [(by decide : mlen (1 : Int) = (30 : Int))]
    rw [(by decide : cumDays (1 : Int) = (31 : Int))]
    rw [(by decide : sumMonthsBefore (Int.toNat (1 : Int)) = some (31 : Int))]
    norm_num only
    try simp only [if_true, if_false, ite_true, ite_false]
    split_ifs <;> first | rfl | omega | (exfalso; omega) | (simp only [DTO.ok.injEq]; omega)
  · unfold grcal_dateToOffset rawOffset monthLenResolved
    simp only [GRCAL_DAY_MAX, DAY_OFFSET, QC_DAYS, C_DAYS, Q_DAYS, Y_DAYS,
      QC_YEARS, C_YEARS, Q_YEARS, BASE_YEAR, MAX_YEAR, MONTH_COUNT, MONTH_OFFSET,
      LEAP_MONTH_LENGTH, NONLEAP_MONTH_LENGTH]
    rw [if_neg (by omega), if_neg (by omega)]
    norm_num only
    simp only [if_true, if_false]
    rw [(by decide : monthLength (2 : Int) = some (31 : Int))]
    norm_num only
    try simp only [if_true, if_false, ite_true, ite_false]
    rw [(by decide : mlen (2 : Int) = (31 : Int))]
    rw [(by decide : cumDays (2 : Int) = (61 : Int))]
    rw [(by decide : sumMonthsBefore (Int.toNat (2 : Int)) = some (61 : Int))]
    norm_num only
    try simp only [if_true, if_false, ite_true, ite_false]
    split_ifs <;> first | rfl | omega | (exfalso; omega) | (simp only [DTO.ok.injEq]; omega)
  · unfold grcal_dateToOffset rawOffset monthLenResolved
    simp only [GRCAL_DAY_MAX, DAY_OFFSET, QC_DAYS, C_DAYS, Q_DAYS, Y_DAYS,
      QC_YEARS, C_YEARS, Q_YEARS, BASE_YEAR, MAX_YEAR, MONTH_COUNT, MONTH_OFFSET,
      LEAP_MONTH_LENGTH, NONLEAP_MONTH_LENGTH]
    rw [if_neg (by omega), if_neg (by omega)]
    norm_num only
    simp only [if_true, if_false]
    rw [(by decide : monthLength (3 : Int) = some (30 : Int))]
    norm_num only
    try simp only [if_true, if_false, ite_true, ite_false]
    rw [(by decide : mlen (3 : Int) = (30 : Int))]
    rw [(by decide : cumDays (3 : Int) = (92 : Int))]
    rw [(by decide : sumMonthsBefore (Int.toNat (3 : Int)) = some (92 : Int))]
    norm_num only
    try simp only [if_true, if_false, ite_true, ite_false]
    split_ifs <;> first | rfl | omega | (exfalso; omega) | (simp only [DTO.ok.injEq]; omega)
  · unfold grcal_dateToOffset rawOffset monthLenResolved
    simp only [GRCAL_DAY_MAX, DAY_OFFSET, QC_DAYS, C_DAYS, Q_DAYS, Y_DAYS,
      QC_YEARS, C_YEARS, Q_YEARS, BASE_YEAR, MAX_YEAR, MONTH_COUNT, MONTH_OFFSET,
      LEAP_MONTH_LENGTH, NONLEAP_MONTH_LENGTH]
    rw [if_neg (by omega), if_neg (by omega)]
    norm_num only
    simp only [if_true, if_false]
    rw [(by decide : monthLength (4 : Int) = some (31 : Int))]
    norm_num only
    try simp only [if_true, if_false, ite_true, ite_false]
    rw [(by decide : mlen (4 : Int) = (31 : Int))]
    rw [(by decide : cumDays (4 : Int) = (122 : Int))]
    rw [(by decide : sumMonthsBefore (Int.toNat (4 : Int)) = some (122 : Int))]
    norm_num only
    try simp only [if_true, if_false, ite_true, ite_false]
    split_ifs <;> first | rfl | omega | (exfalso; omega) | (simp only [DTO.ok.injEq]; omega)
  · unfold grcal_dateToOffset rawOffset monthLenResolved
    simp only [GRCAL_DAY_MAX, DAY_OFFSET, QC_DAYS, C_DAYS, Q_DAYS, Y_DAYS,
      QC_YEARS, C_YEARS, Q_YEARS, BASE_YEAR, MAX_YEAR, MONTH_COUNT, MONTH_OFFSET,
      LEAP_MONTH_LENGTH, NONLEAP_MONTH_LENGTH]
    rw [if_neg (by omega), if_neg (by omega)]
    norm_num only
    simp only [if_true, if_false]
    rw [(by decide : monthLength (5 : Int) = some (31 : Int))]
    norm_num only
    try simp only [if_true, if_false, ite_true, ite_false]
    rw [(by decide : mlen (5 : Int) = (31 : Int))]
    rw [(by decide : cumDays (5 : Int) = (153 : Int))]
    rw [(by decide : sumMonthsBefore (Int.toNat (5 : Int)) = some (153 : Int))]
    norm_num only
    try simp only [if_true, if_false, ite_true, ite_false]
    split_ifs <;> first | rfl | omega | (exfalso; omega) | (simp only [DTO.ok.injEq]; omega)
  · unfold grcal_dateToOffset rawOffset monthLenResolved
    simp only [GRCAL_DAY_MAX, DAY_OFFSET, QC_DAYS, C_DAYS, Q_DAYS, Y_DAYS,
      QC_YEARS, C_YEARS, Q_YEARS, BASE_YEAR, MAX_YEAR, MONTH_COUNT, MONTH_OFFSET,
      LEAP_MONTH_LENGTH, NONLEAP_MONTH_LENGTH]
    rw [if_neg (by omega), if_neg (by omega)]
    norm_num only
    simp only [if_true, if_false]
    rw [(by decide : monthLength (6 : Int) = some (30 : Int))]
    norm_num only
    try simp only [if_true, if_false, ite_true, ite_false]
    rw [(by decide : mlen (6 : Int) = (30 : Int))]
    rw [(by decide : cumDays (6 : Int) = (184 : Int))]
    rw [(by decide : sumMonthsBefore (Int.toNat (6 : Int)) = some (184 : Int))]
    norm_num only
    try simp only [if_true, if_false, ite_true, ite_false]
    split_ifs <;> first | rfl | omega | (exfalso; omega) | (simp only [DTO.ok.injEq]; omega)
  · unfold grcal_dateToOffset rawOffset monthLenResolved
    simp only [GRCAL_DAY_MAX, DAY_OFFSET, QC_DAYS, C_DAYS, Q_DAYS, Y_DAYS,
      QC_YEARS, C_YEARS, Q_YEARS, BASE_YEAR, MAX_YEAR, MONTH_COUNT, MONTH_OFFSET,
      LEAP_MONTH_LENGTH, NONLEAP_MONTH_LENGTH]
    rw [if_neg (by omega), if_neg (by omega)]
    norm_num only
    simp only [if_true, if_false]
    rw [(by decide : monthLength (7 : Int) = some (31 : Int))]
    norm_num only
    try simp only [if_true, if_false, ite_true, ite_false]
    rw [(by decide : mlen (7 : Int) = (31 : Int))]
    rw [(by decide : cumDays (7 : Int) = (214 : Int))]
    rw [(by decide : sumMonthsBefore (Int.toNat (7 : Int)) = some (214 : Int))]
    norm_num only
    try simp only [if_true, if_false, ite_true, ite_false]
    split_ifs <;> first | rfl | omega | (exfalso; omega) | (simp only [DTO.ok.injEq]; omega)
  · unfold grcal_dateToOffset rawOffset monthLenResolved
    simp only [GRCAL_DAY_MAX, DAY_OFFSET, QC_DAYS, C_DAYS, Q_DAYS, Y_DAYS,
      QC_YEARS, C_YEARS, Q_YEARS, BASE_YEAR, MAX_YEAR, MONTH_COUNT, MONTH_OFFSET,
      LEAP_MONTH_LENGTH, NONLEAP_MONTH_LENGTH]
    rw [if_neg (by omega), if_neg (by omega)]
    norm_num only
    simp only [if_true, if_false]
    rw [(by decide : monthLength (8 : Int) = some (30 : Int))]
    norm_num only
    try simp only [if_true, if_false, ite_true, ite_false]
    rw [(by decide : mlen (8 : Int) = (30 : Int))]
    rw [(by decide : cumDays (8 : Int) = (245 : Int))]
    rw [(by decide : sumMonthsBefore (Int.toNat (8 : Int)) = some (245 : Int))]
    norm_num only
    try simp only [if_true, if_false, ite_true, ite_false]
    split_ifs <;> first | rfl | omega | (exfalso; omega) | (simp only [DTO.ok.injEq]; omega)
  · unfold grcal_dateToOffset rawOffset monthLenResolved
    simp only [GRCAL_DAY_MAX, DAY_OFFSET, QC_DAYS, C_DAYS, Q_DAYS, Y_DAYS,
      QC_YEARS, C_YEARS, Q_YEARS, BASE_YEAR, MAX_YEAR, MONTH_COUNT, MONTH_OFFSET,
      LEAP_MONTH_LENGTH, NONLEAP_MONTH_LENGTH]
    rw [if_neg (by omega), if_neg (by omega)]
    norm_num only
    simp only [if_true, if_false]
    rw [(by decide : monthLength (9 : Int) = some (31 : Int))]
    norm_num only
    try simp only [if_true, if_false, ite_true, ite_false]
    rw [(by decide : mlen (9 : Int) = (31 : Int))]
    rw [(by decide : cumDays (9 : Int) = (275 : Int))]
    rw [(by decide : sumMonthsBefore (Int.toNat (9 : Int)) = some (275 : Int))]
    norm_num only
    try simp only [if_true, if_false, ite_true, ite_false]
    split_ifs <;> first | rfl | omega | (exfalso; omega) | (simp only [DTO.ok.injEq]; omega)


lemma dto_fail_basic (y m d : Int)
    (h : y ≤ 1200 ∨ 9999 < y ∨ m < 1 ∨ 12 < m ∨ d < 1) :
    grcal_dateToOffset y m d = .fail := by
  unfold grcal_dateToOffset
  simp only [BASE_YEAR, MAX_YEAR, MONTH_COUNT]
  by_cases h1 : y ≤ 1200 ∨ m < 1 ∨ d < 1
  · rw [if_pos h1]
  · rw [if_neg h1, if_pos (by omega)]

lemma dto_ne_fault (y m d : Int) : grcal_dateToOffset y m d ≠ DTO.fault := by
  by_cases hb : 1200 < y ∧ y ≤ 9999 ∧ 1 ≤ m ∧ m ≤ 12 ∧ 1 ≤ d
  · obtain ⟨h1, h2, h3, h4, h5⟩ := hb
    rw [dto_main y m d h1 h2 h3 h4 h5]
    split_ifs <;> simp
  · rw [dto_fail_basic y m d (by omega)]
    simp

lemma dto_ok_inv (y m d o : Int) (h : grcal_dateToOffset y m d = .ok o) :
    1200 < y ∧ y ≤ 9999 ∧ 1 ≤ m ∧ m ≤ 12 ∧ 1 ≤ d ∧ d ≤ monthLenResolved y m ∧
    o = rawOffset y m d ∧ 0 ≤ o ∧ o ≤ 3074323 := by
  by_cases hb : 1200 < y ∧ y ≤ 9999 ∧ 1 ≤ m ∧ m ≤ 12 ∧ 1 ≤ d
  · obtain ⟨h1, h2, h3, h4, h5⟩ := hb
    rw [dto_main y m d h1 h2 h3 h4 h5] at h
    split_ifs at h with h6 h7
    all_goals first
    | exact absurd h (fun hc => DTO.noConfusion hc)
    | (injection h with ho
       exact ⟨h1, h2, h3, h4, h5, by omega, ho.symm, by omega, by omega⟩)
  · rw [dto_fail_basic y m d (by omega)] at h
    exact absurd h (by simp)

lemma dto_ok_of (y m d : Int) (h1 : 1200 < y) (h2 : y ≤ 9999) (h3 : 1 ≤ m)
    (h4 : m ≤ 12) (h5 : 1 ≤ d) (h6 : d ≤ monthLenResolved y m)
    (h7 : 0 ≤ rawOffset y m d) (h8 : rawOffset y m d ≤ 3074323) :
    grcal_dateToOffset y m d = .ok (rawOffset y m d) := by
  rw [dto_main y m d h1 h2 h3 h4 h5, if_neg (by omega), if_neg (by omega)]

lemma monthLenResolved_feb (y : Int) :
    monthLenResolved y 2 =
      if y % 400 = 0 ∨ (y % 4 = 0 ∧ y % 100 ≠ 0) then 29 else 28 := by
  unfold monthLenResolved
  norm_num

lemma monthLenResolved_one (y : Int) : monthLenResolved y 1 = 31 := by
  unfold monthLenResolved
  norm_num [mlen, MONTH_OFFSET, MONTH_COUNT]

lemma monthLenResolved_plus3 (y M : Int) (h0 : 0 ≤ M) (h9 : M ≤ 9) :
    monthLenResolved y (M + 3) = mlen M := by
  unfold monthLenResolved
  rw [if_neg (by omega)]
  simp only [MONTH_OFFSET, MONTH_COUNT]
  rw [if_neg (by omega)]
  congr 1
  omega

lemma monthLenResolved_ge3 (y m : Int) (h3 : 3 ≤ m) (h12 : m ≤ 12) :
    monthLenResolved y m = mlen (m - 1 - 2) := by
  unfold monthLenResolved
  rw [if_neg (by omega)]
  simp only [MONTH_OFFSET, MONTH_COUNT]
  rw [if_neg (by omega)]

/-- One-step bounds for the Gregorian leap-day count
`u / 4 - u / 100 + u / 400`. -/
lemma fdays_step (u : Int) :
    u / 4 - u / 100 + u / 400 ≤ (u + 1) / 4 - (u + 1) / 100 + (u + 1) / 400 ∧
    (u + 1) / 4 - (u + 1) / 100 + (u + 1) / 400 ≤ u / 4 - u / 100 + u / 400 + 1 := by
  omega

/-- Crossing from a leap March-based year to the next one gains exactly one
leap day in the count. -/
lemma fdays_leap_step (u : Int) (h4 : u % 4 = 3)
    (h100 : u % 100 = 99 → u % 400 = 399) :
    (u + 1) / 4 - (u + 1) / 100 + (u + 1) / 400 = u / 4 - u / 100 + u / 400 + 1 := by
  omega

lemma fdays_mono_nat (u : Int) (k : Nat) :
    u / 4 - u / 100 + u / 400 ≤ (u + k) / 4 - (u + k) / 100 + (u + k) / 400 := by
  induction k with
  | zero => omega
  | succ n ih =>
    have hs := fdays_step (u + n)
    omega

/-- The leap-day count is monotone. -/
lemma fdays_mono (u v : Int) (h : u ≤ v) :
    u / 4 - u / 100 + u / 400 ≤ v / 4 - v / 100 + v / 400 := by
  obtain ⟨k, hk⟩ := Int.le.dest h
  rw [← hk]
  exact fdays_mono_nat u k

/-- A day count in the proleptic frame determines the March-based year
offset and the day within the year uniquely, given that a 366th day occurs
only before a leap February. -/
lemma year_unique (u v dd dd' : Int)
    (hdd0 : 0 ≤ dd) (hdd1 : dd ≤ 365)
    (hl : dd = 365 → u % 4 = 3 ∧ (u % 100 = 99 → u % 400 = 399))
    (hdd0' : 0 ≤ dd') (hdd1' : dd' ≤ 365)
    (hl' : dd' = 365 → v % 4 = 3 ∧ (v % 100 = 99 → v % 400 = 399))
    (he : 365 * u + (u / 4 - u / 100 + u / 400) + dd
        = 365 * v + (v / 4 - v / 100 + v / 400) + dd') :
    u = v ∧ dd = dd' := by
  rcases lt_trichotomy u v with hlt | hee | hlt
  · exfalso
    have hm := fdays_mono (u + 1) v (by omega)
    have hs := fdays_step u
    have hk : dd = 365 := by omega
    obtain ⟨h4, h100⟩ := hl hk
    have := fdays_leap_step u h4 h100
    omega
  · omega
  · exfalso
    have hm := fdays_mono (v + 1) u (by omega)
    have hs := fdays_step v
    have hk : dd' = 365 := by omega
    obtain ⟨h4, h100⟩ := hl' hk
    have := fdays_leap_step v h4 h100
    omega

/-- A day count within a March-based year determines the month index and
the day within the month uniquely. -/
lemma month_unique (M D Mt Dt : Int)
    (hM : 0 ≤ M) (hM1 : M ≤ 11) (hD : 0 ≤ D) (hstop : M = 11 ∨ D < mlen M)
    (hMt : 0 ≤ Mt) (hMt1 : Mt ≤ 11) (hDt : 0 ≤ Dt) (hstopt : Mt = 11 ∨ Dt < mlen Mt)
    (he : cumDays M + D = cumDays Mt + Dt) : M = Mt ∧ D = Dt := by
  have hm1 := cumDays_mem M hM hM1
  have hm2 := cumDays_mem Mt hMt hMt1
  omega

set_option maxHeartbeats 1600000 in
/-- Decomposition followed by composition: for every offset in the valid
range, grcal_offsetToDate produces a valid date and grcal_dateToOffset
maps that date back to the same offset. -/
lemma otd_dto (o : Int) (h0 : 0 ≤ o) (h1 : o ≤ 3074323) :
    ∃ y m d, grcal_offsetToDate o = some (y, m, d) ∧
      grcal_dateToOffset y m d = .ok o ∧
      1582 ≤ y ∧ y ≤ 9999 ∧ 1 ≤ m ∧ m ≤ 12 ∧ 1 ≤ d ∧ d ≤ monthLenResolved y m := by
  obtain ⟨yoff, M, D0, y, mo, dy, hotd, hyv, hmv, hdv, hy0, hy1, hM0, hM1, hD0,
    hstop, hub, heq, hleap⟩ := otd_char o h0 h1
  have hmem := cumDays_mem M hM0 hM1
  have key : dy ≤ monthLenResolved y mo ∧ rawOffset y mo dy = o ∧
      1 ≤ mo ∧ mo ≤ 12 ∧ 1582 ≤ y ∧ y ≤ 9999 := by
    by_cases hM10 : 10 ≤ M
    · rw [if_pos hM10] at hyv hmv
      by_cases hM11 : M = 11
      · subst hM11
        have hmo : mo = 2 := by omega
        subst hmo
        rw [monthLenResolved_feb]
        have hraw : rawOffset y 2 dy = o := by
          unfold rawOffset
          simp only [MONTH_OFFSET, MONTH_COUNT, BASE_YEAR, QC_YEARS, C_YEARS, Q_YEARS,
            QC_DAYS, C_DAYS, Q_DAYS, Y_DAYS, DAY_OFFSET]
          norm_num only
          try simp only [if_true, if_false, ite_true, ite_false]
          rw [(by decide : cumDays (11 : Int) = (337 : Int))]
          rw [show y - 1 - 1200 = yoff from by omega]
          omega
        refine ⟨?_, hraw, by norm_num, by norm_num, by omega, by omega⟩
        by_cases hl : y % 400 = 0 ∨ (y % 4 = 0 ∧ y % 100 ≠ 0)
        · rw [if_pos hl]
          omega
        · rw [if_neg hl]
          omega
      · have hM10e : M = 10 := by omega
        subst hM10e
        have hmo : mo = 1 := by omega
        subst hmo
        rw [monthLenResolved_one]
        have hraw : rawOffset y 1 dy = o := by
          unfold rawOffset
          simp only [MONTH_OFFSET, MONTH_COUNT, BASE_YEAR, QC_YEARS, C_YEARS, Q_YEARS,
            QC_DAYS, C_DAYS, Q_DAYS, Y_DAYS, DAY_OFFSET]
          norm_num only
          try simp only [if_true, if_false, ite_true, ite_false]
          rw [(by decide : cumDays (10 : Int) = (306 : Int))]
          rw [show y - 1 - 1200 = yoff from by omega]
          omega
        exact ⟨by omega, hraw, by norm_num, by norm_num, by omega, by omega⟩
    · rw [if_neg hM10] at hyv hmv
      subst hmv
      rw [monthLenResolved_plus3 y M hM0 (by omega)]
      have hmem2 := cumDays_mem (M + 3 - 1 - 2) (by omega) (by omega)
      have hraw : rawOffset y (M + 3) dy = o := by
        unfold rawOffset
        simp only [MONTH_OFFSET, MONTH_COUNT, BASE_YEAR, QC_YEARS, C_YEARS, Q_YEARS,
          QC_DAYS, C_DAYS, Q_DAYS, Y_DAYS, DAY_OFFSET]
        rw [if_neg (show ¬ M + 3 - 1 - 2 < 0 by omega),
          if_neg (show ¬ M + 3 - 1 - 2 < 0 by omega)]
        rw [show y - 1200 = yoff from by omega]
        omega
      exact ⟨by omega, hraw, by omega, by omega, by omega, by omega⟩
  obtain ⟨k1, k2, k3, k4, k5, k6⟩ := key
  have hdto := dto_ok_of y mo dy (by omega) k6 k3 k4 (by omega) k1 (by omega) (by omega)
  rw [k2] at hdto
  exact ⟨y, mo, dy, hotd, hdto, k5, k6, k3, k4, by omega, k1⟩

set_option maxHeartbeats 1600000 in
/-- Composition followed by decomposition: grcal_offsetToDate inverts any
successful grcal_dateToOffset. -/
lemma dto_otd (y m d o : Int) (h : grcal_dateToOffset y m d = .ok o) :
    grcal_offsetToDate o = some (y, m, d) := by
  obtain ⟨h1, h2, h3, h4, h5, h6, hraw, ho0, ho1⟩ := dto_ok_inv y m d o h
  obtain ⟨yoff, M, D0, yv, mov, dyv, hotd, hyv, hmv, hdv, hy0, hy1, hM0, hM1, hD0,
    hstop, hub, heq, hleap⟩ := otd_char o ho0 ho1
  rw [hotd]
  have hmem := cumDays_mem M hM0 hM1
  have heq2 : o + 139750 = 365 * yoff + (yoff / 4 - yoff / 100 + yoff / 400) +
      (cumDays M + D0) := by
    omega
  simp only [Option.some.injEq, Prod.mk.injEq]
  by_cases hm1 : m = 1
  · subst hm1
    rw [monthLenResolved_one] at h6
    have hmem2 := cumDays_mem (1 - 1 - 2 + 12) (by norm_num) (by norm_num)
    have hrEq : o + 139750 = 365 * (y - 1 - 1200) +
        ((y - 1 - 1200) / 4 - (y - 1 - 1200) / 100 + (y - 1 - 1200) / 400) +
        (cumDays (1 - 1 - 2 + 12) + (d - 1)) := by
      rw [hraw]
      unfold rawOffset
      simp only [MONTH_OFFSET, MONTH_COUNT, BASE_YEAR, QC_YEARS, C_YEARS, Q_YEARS,
        QC_DAYS, C_DAYS, Q_DAYS, Y_DAYS, DAY_OFFSET]
      rw [if_pos (show (1 : Int) - 1 - 2 < 0 by norm_num),
        if_pos (show (1 : Int) - 1 - 2 < 0 by norm_num)]
      omega
    have hyu := year_unique yoff (y - 1 - 1200) (cumDays M + D0)
      (cumDays (1 - 1 - 2 + 12) + (d - 1)) (by omega) (by omega) hleap
      (by omega) (by omega) (fun hc => absurd hc (by omega)) (by omega)
    obtain ⟨hu1, hu2⟩ := hyu
    have hmu := month_unique M D0 (1 - 1 - 2 + 12) (d - 1) hM0 hM1 hD0 hstop
      (by norm_num) (by norm_num) (by omega) (by omega) (by omega)
    obtain ⟨hv1, hv2⟩ := hmu
    subst hv1
    rw [if_pos (by norm_num : (10 : Int) ≤ 1 - 1 - 2 + 12)] at hyv hmv
    refine ⟨by omega, by omega, by omega⟩
  · by_cases hm2 : m = 2
    · subst hm2
      rw [monthLenResolved_feb] at h6
      have hmem2 := cumDays_mem (2 - 1 - 2 + 12) (by norm_num) (by norm_num)
      have hrEq : o + 139750 = 365 * (y - 1 - 1200) +
          ((y - 1 - 1200) / 4 - (y - 1 - 1200) / 100 + (y - 1 - 1200) / 400) +
          (cumDays (2 - 1 - 2 + 12) + (d - 1)) := by
        rw [hraw]
        unfold rawOffset
        simp only [MONTH_OFFSET, MONTH_COUNT, BASE_YEAR, QC_YEARS, C_YEARS, Q_YEARS,
          QC_DAYS, C_DAYS, Q_DAYS, Y_DAYS, DAY_OFFSET]
        rw [if_pos (show (2 : Int) - 1 - 2 < 0 by norm_num),
          if_pos (show (2 : Int) - 1 - 2 < 0 by norm_num)]
        omega
      by_cases hl : y % 400 = 0 ∨ (y % 4 = 0 ∧ y % 100 ≠ 0)
      · rw [if_pos hl] at h6
        have hyu := year_unique yoff (y - 1 - 1200) (cumDays M + D0)
          (cumDays (2 - 1 - 2 + 12) + (d - 1)) (by omega) (by omega) hleap
          (by omega) (by omega) (fun hc => ⟨by omega, fun hc2 => by omega⟩) (by omega)
        obtain ⟨hu1, hu2⟩ := hyu
        have hmu := month_unique M D0 (2 - 1 - 2 + 12) (d - 1) hM0 hM1 hD0 hstop
          (by norm_num) (by norm_num) (by omega) (by omega) (by omega)
        obtain ⟨hv1, hv2⟩ := hmu
        subst hv1
        rw [if_pos (by norm_num : (10 : Int) ≤ 2 - 1 - 2 + 12)] at hyv hmv
        refine ⟨by omega, by omega, by omega⟩
      · rw [if_neg hl] at h6
        have hyu := year_unique yoff (y - 1 - 1200) (cumDays M + D0)
          (cumDays (2 - 1 - 2 + 12) + (d - 1)) (by omega) (by omega) hleap
          (by omega) (by omega) (fun hc => absurd hc (by omega)) (by omega)
        obtain ⟨hu1, hu2⟩ := hyu
        have hmu := month_unique M D0 (2 - 1 - 2 + 12) (d - 1) hM0 hM1 hD0 hstop
          (by norm_num) (by norm_num) (by omega) (by omega) (by omega)
        obtain ⟨hv1, hv2⟩ := hmu
        subst hv1
        rw [if_pos (by norm_num : (10 : Int) ≤ 2 - 1 - 2 + 12)] at hyv hmv
        refine ⟨by omega, by omega, by omega⟩
    · have hm3 : 3 ≤ m := by omega
      rw [monthLenResolved_ge3 y m hm3 h4] at h6
      have hmem2 := cumDays_mem (m - 1 - 2) (by omega) (by omega)
      have hrEq : o + 139750 = 365 * (y - 1200) +
          ((y - 1200) / 4 - (y - 1200) / 100 + (y - 1200) / 400) +
          (cumDays (m - 1 - 2) + (d - 1)) := by
        rw [hraw]
        unfold rawOffset
        simp only [MONTH_OFFSET, MONTH_COUNT, BASE_YEAR, QC_YEARS, C_YEARS, Q_YEARS,
          QC_DAYS, C_DAYS, Q_DAYS, Y_DAYS, DAY_OFFSET]
        rw [if_neg (show ¬ m - 1 - 2 < 0 by omega),
          if_neg (show ¬ m - 1 - 2 < 0 by omega)]
        omega
      have hyu := year_unique yoff (y - 1200) (cumDays M + D0)
        (cumDays (m - 1 - 2) + (d - 1)) (by omega) (by omega) hleap
        (by omega) (by omega) (fun hc => absurd hc (by omega)) (by omega)
      obtain ⟨hu1, hu2⟩ := hyu
      have hmu := month_unique M D0 (m - 1 - 2) (d - 1) hM0 hM1 hD0 hstop
        (by omega) (by omega) (by omega) (by omega) (by omega)
      obtain ⟨hv1, hv2⟩ := hmu
      subst hv1
      rw [if_neg (show ¬ (10 : Int) ≤ m - 1 - 2 by omega)] at hyv hmv
      refine ⟨by omega, by omega, by omega⟩

lemma dto_fail_iff (y m d : Int) :
    grcal_dateToOffset y m d = DTO.fail ↔
      (y ≤ 1200 ∨ 9999 < y ∨ m < 1 ∨ 12 < m ∨ d < 1 ∨ monthLenResolved y m < d ∨
       rawOffset y m d < 0 ∨ 3074323 < rawOffset y m d) := by
  by_cases hb : 1200 < y ∧ y ≤ 9999 ∧ 1 ≤ m ∧ m ≤ 12 ∧ 1 ≤ d
  · obtain ⟨h1, h2, h3, h4, h5⟩ := hb
    rw [dto_main y m d h1 h2 h3 h4 h5]
    split_ifs with h6 h7
    · exact iff_of_true rfl (by omega)
    · exact iff_of_true rfl (by omega)
    · exact iff_of_false (by simp) (by omega)
  · rw [dto_fail_basic y m d (by omega)]
    exact iff_of_true rfl (by omega)

/-- C1: for every day offset o in [0, GRCAL_DAY_MAX], decomposing o with
grcal_offsetToDate and recomposing with grcal_dateToOffset succeeds and
returns exactly o, and the produced triple is the unique date whose
composition yields o. -/
theorem claim_C1 (o : Int) (h0 : 0 ≤ o) (h1 : o ≤ GRCAL_DAY_MAX) :
    ∃ y m d, grcal_offsetToDate o = some (y, m, d) ∧
      grcal_dateToOffset y m d = DTO.ok o ∧
      ∀ y' m' d', grcal_dateToOffset y' m' d' = DTO.ok o → (y', m', d') = (y, m, d) := by
  obtain ⟨y, m, d, hotd, hdto, _, _, _, _, _, _⟩ :=
    otd_dto o h0 (by simp only [GRCAL_DAY_MAX] at h1; exact h1)
  refine ⟨y, m, d, hotd, hdto, ?_⟩
  intro y' m' d' h'
  have h2 := dto_otd y' m' d' o h'
  rw [hotd] at h2
  simp only [Option.some.injEq, Prod.mk.injEq] at h2
  obtain ⟨e1, e2, e3⟩ := h2
  rw [← e1, ← e2, ← e3]

/-- Witness for C1 at the Unix epoch offset. -/
theorem claim_C1_witness :
    (0 ≤ (141427 : Int) ∧ (141427 : Int) ≤ GRCAL_DAY_MAX) ∧
    (∃ y m d, grcal_offsetToDate 141427 = some (y, m, d) ∧
      grcal_dateToOffset y m d = DTO.ok 141427 ∧
      ∀ y' m' d', grcal_dateToOffset y' m' d' = DTO.ok 141427 →
        (y', m', d') = (y, m, d)) :=
  ⟨⟨by decide, by decide⟩, claim_C1 141427 (by decide) (by decide)⟩

/-- C2: whenever grcal_dateToOffset succeeds with offset o, applying
grcal_offsetToDate to o reproduces exactly the same year, month and day
of month. -/
theorem claim_C2 (y m d o : Int) (h : grcal_dateToOffset y m d = DTO.ok o) :
    grcal_offsetToDate o = some (y, m, d) :=
  dto_otd y m d o h

/-- Witness for C2 at 1970-01-01. -/
theorem claim_C2_witness :
    grcal_dateToOffset 1970 1 1 = DTO.ok 141427 ∧
    grcal_offsetToDate 141427 = some (1970, 1, 1) :=
  ⟨by decide, claim_C2 1970 1 1 141427 (by decide)⟩

/-- C3: grcal_dateToOffset fails exactly when the year is at most 1200 or
greater than 9999, the month is outside [1, 12], the day of month is
outside [1, resolved month length], or the computed raw offset falls
outside [0, 3074323]; otherwise it succeeds.  In particular the four
quoted invalid dates all fail. -/
theorem claim_C3 :
    (∀ y m d : Int, grcal_dateToOffset y m d = DTO.fail ↔
      (y ≤ 1200 ∨ 9999 < y ∨ m < 1 ∨ 12 < m ∨ d < 1 ∨ monthLenResolved y m < d ∨
       rawOffset y m d < 0 ∨ 3074323 < rawOffset y m d)) ∧
    (∀ y m d : Int,
      ¬(y ≤ 1200 ∨ 9999 < y ∨ m < 1 ∨ 12 < m ∨ d < 1 ∨ monthLenResolved y m < d ∨
        rawOffset y m d < 0 ∨ 3074323 < rawOffset y m d) →
      ∃ o, grcal_dateToOffset y m d = DTO.ok o) ∧
    grcal_dateToOffset 1582 10 14 = DTO.fail ∧
    grcal_dateToOffset 1200 1 1 = DTO.fail ∧
    grcal_dateToOffset 2023 13 1 = DTO.fail ∧
    grcal_dateToOffset 2023 4 31 = DTO.fail := by
  refine ⟨dto_fail_iff, ?_, by decide, by decide, by decide, by decide⟩
  intro y m d hn
  rcases hE : grcal_dateToOffset y m d with o | _ | _
  · exact ⟨o, rfl⟩
  · exact absurd ((dto_fail_iff y m d).mp hE) hn
  · exact absurd hE (dto_ne_fault y m d)

/-- Witness for C3: a valid date is accepted. -/
theorem claim_C3_witness : ∃ o, grcal_dateToOffset 2023 4 30 = DTO.ok o :=
  claim_C3.2.1 2023 4 30 (by decide)

/-- C4: grcal_dateToOffset never aborts: on every input the helper
preconditions hold on every execution path, so the fault outcome is
unreachable. -/
theorem claim_C4 : ∀ y m d : Int, grcal_dateToOffset y m d ≠ DTO.fault :=
  dto_ne_fault

/-- C5: for every year at least one, isLeapYear returns true exactly for
years divisible by 400, or divisible by 4 and not by 100; consequently
2000-02-29 composes successfully while 1900-02-29 fails. -/
theorem claim_C5 :
    (∀ y : Int, 1 ≤ y →
      (isLeapYear y = some true ↔ (y % 400 = 0 ∨ (y % 4 = 0 ∧ y % 100 ≠ 0)))) ∧
    (∃ o, grcal_dateToOffset 2000 2 29 = DTO.ok o) ∧
    grcal_dateToOffset 1900 2 29 = DTO.fail := by
  refine ⟨?_, ⟨152443, by decide⟩, by decide⟩
  intro y hy
  rw [isLeapYear_eq y hy]
  simp only [Option.some.injEq, Bool.or_eq_true, Bool.and_eq_true, decide_eq_true_eq]

/-- Witness for C5 at year 2024. -/
theorem claim_C5_witness :
    1 ≤ (2024 : Int) ∧
    (isLeapYear 2024 = some true ↔
      ((2024 : Int) % 400 = 0 ∨ ((2024 : Int) % 4 = 0 ∧ (2024 : Int) % 100 ≠ 0))) :=
  ⟨by decide, claim_C5.1 2024 (by decide)⟩

/-- C6: the boundary anchors: offset 0 is 1582-10-15 and a Friday
(weekday 5), offset GRCAL_DAY_MAX is 9999-12-31, and the Unix epoch
offset GRCAL_DAY_UNIX is 1970-01-01. -/
theorem claim_C6 :
    grcal_offsetToDate 0 = some (1582, 10, 15) ∧
    grcal_weekday 0 = some 5 ∧
    grcal_offsetToDate GRCAL_DAY_MAX = some (9999, 12, 31) ∧
    grcal_offsetToDate GRCAL_DAY_UNIX = some (1970, 1, 1) :=
  ⟨by decide, by decide, by decide, by decide⟩

/-- C7: for every offset in [0, GRCAL_DAY_MAX], grcal_weekday computes
((oAdj - 3) mod 7) + 1 where oAdj adds a week when the offset is below 3,
and the result lies in [1, 7]. -/
theorem claim_C7 (o : Int) (h0 : 0 ≤ o) (h1 : o ≤ GRCAL_DAY_MAX) :
    grcal_weekday o = some (((if o < 3 then o + 7 else o) - 3) % 7 + 1) ∧
    1 ≤ ((if o < 3 then o + 7 else o) - 3) % 7 + 1 ∧
    ((if o < 3 then o + 7 else o) - 3) % 7 + 1 ≤ 7 := by
  simp only [GRCAL_DAY_MAX] at h1
  refine ⟨?_, ?_, ?_⟩
  · unfold grcal_weekday
    simp only [GRCAL_DAY_MAX, FIRST_MONDAY, WEEK_LENGTH]
    rw [if_neg (by omega)]
  · split_ifs <;> omega
  · split_ifs <;> omega

/-- Witness for C7 at offset 0. -/
theorem claim_C7_witness :
    (0 ≤ (0 : Int) ∧ (0 : Int) ≤ GRCAL_DAY_MAX) ∧
    (grcal_weekday 0 = some ((((if (0 : Int) < 3 then (0 : Int) + 7 else 0) - 3) % 7) + 1) ∧
     1 ≤ (((if (0 : Int) < 3 then (0 : Int) + 7 else 0) - 3) % 7) + 1 ∧
     (((if (0 : Int) < 3 then (0 : Int) + 7 else 0) - 3) % 7) + 1 ≤ 7) :=
  ⟨⟨by decide, by decide⟩, claim_C7 0 (by decide) (by decide)⟩

/-- C8: the composition call writes through its destination only when the
whole validation passes, the verdict is the same whether or not a
destination is supplied, and a NULL destination is never written. -/
theorem claim_C8 (mem mem' y m d : Int) :
    ∃ v w, grcal_dateToOffset_call true mem y m d = some (v, w) ∧
      grcal_dateToOffset_call false mem' y m d = some (v, mem') ∧
      (v = 0 → w = mem) := by
  rcases hE : grcal_dateToOffset y m d with o | _ | _
  · exact ⟨1, o, by simp [grcal_dateToOffset_call, hE], by simp [grcal_dateToOffset_call, hE],
      by omega⟩
  · exact ⟨0, mem, by simp [grcal_dateToOffset_call, hE], by simp [grcal_dateToOffset_call, hE],
      fun _ => rfl⟩
  · exact absurd hE (dto_ne_fault y m d)

/-- C9: every decomposed offset yields a well-formed calendar date: year
in [1582, 9999], month in [1, 12], day of month within the resolved month
length, and day 29 of month 2 only in leap years. -/
theorem claim_C9 (o : Int) (h0 : 0 ≤ o) (h1 : o ≤ GRCAL_DAY_MAX) :
    ∃ y m d, grcal_offsetToDate o = some (y, m, d) ∧
      1582 ≤ y ∧ y ≤ 9999 ∧ 1 ≤ m ∧ m ≤ 12 ∧ 1 ≤ d ∧ d ≤ monthLenResolved y m ∧
      (m = 2 ∧ d = 29 → (y % 400 = 0 ∨ (y % 4 = 0 ∧ y % 100 ≠ 0))) := by
  obtain ⟨y, m, d, hotd, _, hy1, hy2, hm1, hm2, hd1, hd2⟩ :=
    otd_dto o h0 (by simp only [GRCAL_DAY_MAX] at h1; exact h1)
  refine ⟨y, m, d, hotd, hy1, hy2, hm1, hm2, hd1, hd2, ?_⟩
  rintro ⟨hm, hd⟩
  subst hm
  subst hd
  rw [monthLenResolved_feb] at hd2
  by_cases hl : y % 400 = 0 ∨ (y % 4 = 0 ∧ y % 100 ≠ 0)
  · exact hl
  · rw [if_neg hl] at hd2
    omega

/-- Witness for C9 at offset 59 (1582-12-13). -/
theorem claim_C9_witness :
    (0 ≤ (59 : Int) ∧ (59 : Int) ≤ GRCAL_DAY_MAX) ∧
    (∃ y m d, grcal_offsetToDate 59 = some (y, m, d) ∧
      1582 ≤ y ∧ y ≤ 9999 ∧ 1 ≤ m ∧ m ≤ 12 ∧ 1 ≤ d ∧ d ≤ monthLenResolved y m ∧
      (m = 2 ∧ d = 29 → (y % 400 = 0 ∨ (y % 4 = 0 ∧ y % 100 ≠ 0)))) :=
  ⟨⟨by decide, by decide⟩, claim_C9 59 (by decide) (by decide)⟩


/-- The value held by a 32-bit two's-complement register after storing n
(4294967296 = 2^32, 2147483648 = 2^31). -/
def wrap32 (n : Int) : Int := (n + 2147483648) % 4294967296 - 2147483648

/-- isLeapYear with every arithmetic result passed through a 32-bit
store. -/
def isLeapYear32 (y : Int) : Option Bool :=
  if y < 1 then none
  else some (decide (wrap32 (y % 400) = 0) ||
    (decide (wrap32 (y % 4) = 0) && decide (wrap32 (y % 100) ≠ 0)))

/-- The month walk of grcal_offsetToDate with 32-bit stores. -/
def monthWalk32 : Nat → Int → Int → Option (Int × Int)
  | 0, _, _ => none
  | fuel + 1, month, d =>
    if d > 0 then
      match monthLength month with
      | none => none
      | some ml =>
        if ml = 0 ∨ d < ml then some (month, d)
        else monthWalk32 fuel (wrap32 (month + 1)) (wrap32 (d - ml))
    else some (month, d)

/-- grcal_offsetToDate with every arithmetic store truncated to 32 bits. -/
def grcal_offsetToDate32 (offs : Int) : Option (Int × Int × Int) :=
  if offs < 0 ∨ offs > GRCAL_DAY_MAX then none
  else
    let o1 := wrap32 (offs + DAY_OFFSET)
    let qc := wrap32 (o1 / QC_DAYS)
    let o2 := wrap32 (o1 % QC_DAYS)
    let c0 := wrap32 (o2 / C_DAYS)
    let o3 := wrap32 (o2 % C_DAYS)
    let q0 := wrap32 (o3 / Q_DAYS)
    let o4 := wrap32 (o3 % Q_DAYS)
    let y0 := wrap32 (o4 / Y_DAYS)
    let d0 := wrap32 (o4 % Y_DAYS)
    let c1 := if c0 = QC_C_COUNT then QC_C_COUNT - 1 else c0
    let q1 := if c0 = QC_C_COUNT then C_Q_COUNT - 1 else q0
    let y1 := if c0 = QC_C_COUNT then Q_Y_COUNT - 1 else y0
    let d1 := if c0 = QC_C_COUNT then Y_LEAP_DAYS - 1 else d0
    let y2 := if y1 = Q_Y_COUNT then Q_Y_COUNT - 1 else y1
    let d2 := if y1 = Q_Y_COUNT then Y_LEAP_DAYS - 1 else d1
    let year0 := wrap32 (qc * QC_YEARS + c1 * C_YEARS + q1 * Q_YEARS + y2 + BASE_YEAR)
    match monthWalk32 13 0 d2 with
    | none => none
    | some md =>
      let day := wrap32 (md.2 + 1)
      let m1 := wrap32 (md.1 + MONTH_OFFSET)
      let year1 := if m1 ≥ MONTH_COUNT then wrap32 (year0 + 1) else year0
      let m2 := if m1 ≥ MONTH_COUNT then wrap32 (m1 - MONTH_COUNT) else m1
      some (year1, wrap32 (m2 + 1), day)

/-- The month-summing loop of grcal_dateToOffset with 32-bit stores. -/
def sumMonthsBefore32 : Nat → Option Int
  | 0 => some 0
  | x + 1 =>
    match sumMonthsBefore32 x, monthLength x with
    | some s, some ml => some (wrap32 (s + ml))
    | _, _ => none

/-- grcal_dateToOffset with every arithmetic store truncated to 32 bits. -/
def grcal_dateToOffset32 (year month dayofmonth : Int) : DTO :=
  if year ≤ BASE_YEAR ∨ month < 1 ∨ dayofmonth < 1 then .fail
  else if year > MAX_YEAR ∨ month > MONTH_COUNT then .fail
  else
    let dom := wrap32 (dayofmonth - 1)
    let m0 := wrap32 (month - 1 - MONTH_OFFSET)
    let y0 := if m0 < 0 then wrap32 (year - 1) else year
    let m1 := if m0 < 0 then wrap32 (m0 + MONTH_COUNT) else m0
    match monthLength m1 with
    | none => .fault
    | some ml0 =>
      match (if ml0 = 0 then
               match isLeapYear32 (wrap32 (y0 + 1)) with
               | none => none
               | some b =>
                 some (if b then LEAP_MONTH_LENGTH else NONLEAP_MONTH_LENGTH)
             else some ml0) with
      | none => .fault
      | some month_len =>
        if dom ≥ month_len then .fail
        else
          let ya := wrap32 (y0 - BASE_YEAR)
          let qc := wrap32 (ya / QC_YEARS)
          let yb := wrap32 (ya % QC_YEARS)
          let c := wrap32 (yb / C_YEARS)
          let yc := wrap32 (yb % C_YEARS)
          let q := wrap32 (yc / Q_YEARS)
          let yd := wrap32 (yc % Q_YEARS)
          let offs0 := wrap32 (qc * QC_DAYS + c * C_DAYS + q * Q_DAYS + yd * Y_DAYS)
          match sumMonthsBefore32 m1.toNat with
          | none => .fault
          | some s =>
            let offs1 := wrap32 (wrap32 (wrap32 (offs0 + s) + dom) - DAY_OFFSET)
            if offs1 < 0 ∨ offs1 > GRCAL_DAY_MAX then .fail
            else .ok offs1

/-- A 32-bit store of an in-range value is exact. -/
lemma wrap32_id (n : Int) (h1 : -2147483648 ≤ n) (h2 : n < 2147483648) :
    wrap32 n = n := by
  unfold wrap32
  omega

lemma isLeapYear32_eq (y : Int) : isLeapYear32 y = isLeapYear y := by
  unfold isLeapYear32 isLeapYear
  by_cases hy : y < 1
  · rw [if_pos hy, if_pos hy]
  · rw [if_neg hy, if_neg hy,
      wrap32_id (y % 400) (by omega) (by omega),
      wrap32_id (y % 4) (by omega) (by omega),
      wrap32_id (y % 100) (by omega) (by omega)]

lemma sumMonthsBefore32_eq (n : Nat) (h : n ≤ 12) :
    sumMonthsBefore32 n = sumMonthsBefore n := by
  interval_cases n <;> decide

lemma monthLength_some (m ml : Int) (h : monthLength m = some ml) :
    0 ≤ m ∧ m ≤ 11 ∧ 0 ≤ ml ∧ ml ≤ 31 := by
  by_cases hm : 0 ≤ m ∧ m ≤ 11
  · obtain ⟨hm1, hm2⟩ := hm
    rw [monthLength_eq m hm1 hm2] at h
    injection h with h2
    have := cumDays_mem m hm1 hm2
    omega
  · unfold monthLength at h
    rw [if_pos (by simp only [MONTH_COUNT]; omega)] at h
    exact absurd h (by simp)

lemma monthWalk32_eq : ∀ (fuel : Nat) (m d : Int), 0 ≤ d → d ≤ 400 →
    monthWalk32 fuel m d = monthWalk fuel m d := by
  intro fuel
  induction fuel with
  | zero =>
    intro m d _ _
    rfl
  | succ n ih =>
    intro m d h0 h1
    simp only [monthWalk32, monthWalk]
    by_cases hd : d > 0
    · simp only [if_pos hd]
      cases hml : monthLength m with
      | none => rfl
      | some ml =>
        simp only []
        by_cases hstop : ml = 0 ∨ d < ml
        · simp only [if_pos hstop]
        · simp only [if_neg hstop]
          obtain ⟨hm1, hm2, hml1, hml2⟩ := monthLength_some m ml hml
          rw [wrap32_id (m + 1) (by omega) (by omega),
            wrap32_id (d - ml) (by omega) (by omega)]
          exact ih (m + 1) (d - ml) (by omega) (by omega)
    · simp only [if_neg hd]


set_option maxHeartbeats 1600000 in
/-- grcal_offsetToDate computed with 32-bit stores coincides with the
exact-arithmetic version: no intermediate value overflows. -/
lemma otd32_eq (o : Int) : grcal_offsetToDate32 o = grcal_offsetToDate o := by
  unfold grcal_offsetToDate32 grcal_offsetToDate
  by_cases hr : o < 0 ∨ o > GRCAL_DAY_MAX
  · rw [if_pos hr, if_pos hr]
  · rw [if_neg hr, if_neg hr]
    simp only [GRCAL_DAY_MAX, DAY_OFFSET, QC_DAYS, C_DAYS, Q_DAYS, Y_DAYS, Y_LEAP_DAYS,
      QC_C_COUNT, C_Q_COUNT, Q_Y_COUNT, QC_YEARS, C_YEARS, Q_YEARS, BASE_YEAR,
      MONTH_COUNT, MONTH_OFFSET] at hr ⊢
    rw [wrap32_id (o + 139750) (by omega) (by omega)]
    rw [wrap32_id ((o + 139750) / 146097) (by omega) (by omega)]
    rw [wrap32_id ((o + 139750) % 146097) (by omega) (by omega)]
    rw [wrap32_id ((o + 139750) % 146097 / 36524) (by omega) (by omega)]
    rw [wrap32_id ((o + 139750) % 146097 % 36524) (by omega) (by omega)]
    rw [wrap32_id ((o + 139750) % 146097 % 36524 / 1461) (by omega) (by omega)]
    rw [wrap32_id ((o + 139750) % 146097 % 36524 % 1461) (by omega) (by omega)]
    rw [wrap32_id ((o + 139750) % 146097 % 36524 % 1461 / 365) (by omega) (by omega)]
    rw [wrap32_id ((o + 139750) % 146097 % 36524 % 1461 % 365) (by omega) (by omega)]
    set yr := (o + 139750) / 146097 * 400 +
      (if (o + 139750) % 146097 / 36524 = 4 then 4 - 1 else (o + 139750) % 146097 / 36524) *
        100 +
      (if (o + 139750) % 146097 / 36524 = 4 then 25 - 1
        else (o + 139750) % 146097 % 36524 / 1461) * 4 +
      (if (if (o + 139750) % 146097 / 36524 = 4 then 4 - 1
            else (o + 139750) % 146097 % 36524 % 1461 / 365) = 4 then 4 - 1
        else if (o + 139750) % 146097 / 36524 = 4 then 4 - 1
        else (o + 139750) % 146097 % 36524 % 1461 / 365) + 1200 with hyr
    set dd := if (if (o + 139750) % 146097 / 36524 = 4 then 4 - 1
          else (o + 139750) % 146097 % 36524 % 1461 / 365) = 4 then 366 - 1
      else if (o + 139750) % 146097 / 36524 = 4 then 366 - 1
      else (o + 139750) % 146097 % 36524 % 1461 % 365 with hdd
    rw [wrap32_id yr (by rw [hyr]; split_ifs <;> omega) (by rw [hyr]; split_ifs <;> omega)]
    rw [monthWalk32_eq 13 0 dd (by rw [hdd]; split_ifs <;> omega)
      (by rw [hdd]; split_ifs <;> omega)]
    obtain ⟨M, D0, hwalk, hM0, hM1, hD0, hsum, hstop⟩ :=
      monthWalk_run 13 0 dd (by norm_num) (by norm_num)
        (by rw [hdd]; split_ifs <;> omega)
        (by rw [cumDays_zero, hdd]; split_ifs <;> omega) (by norm_num)
    rw [hwalk]
    have hmem := cumDays_mem M hM0 hM1
    have hdd365 : dd ≤ 365 := by rw [hdd]; split_ifs <;> omega
    have hc0 := cumDays_zero
    simp only [ge_iff_le]
    rw [wrap32_id (M + 2) (by omega) (by omega)]
    rw [wrap32_id (D0 + 1) (by omega) (by omega)]
    rw [wrap32_id (yr + 1) (by rw [hyr]; split_ifs <;> omega)
      (by rw [hyr]; split_ifs <;> omega)]
    by_cases hM12 : (12 : Int) ≤ M + 2
    · simp only [if_pos hM12]
      rw [wrap32_id (M + 2 - 12) (by omega) (by omega)]
      rw [wrap32_id (M + 2 - 12 + 1) (by omega) (by omega)]
    · simp only [if_neg hM12]
      rw [wrap32_id (M + 2 + 1) (by omega) (by omega)]

set_option maxHeartbeats 1600000 in
/-- grcal_dateToOffset computed with 32-bit stores coincides with the
exact-arithmetic version on every int32 input triple: no intermediate
value overflows. -/
lemma dto32_eq (y m d : Int) (hy1 : -2147483648 ≤ y) (hy2 : y < 2147483648)
    (hmm1 : -2147483648 ≤ m) (hmm2 : m < 2147483648)
    (hdd1 : -2147483648 ≤ d) (hdd2 : d < 2147483648) :
    grcal_dateToOffset32 y m d = grcal_dateToOffset y m d := by
  unfold grcal_dateToOffset32 grcal_dateToOffset
  simp only [GRCAL_DAY_MAX, DAY_OFFSET, QC_DAYS, C_DAYS, Q_DAYS, Y_DAYS, Y_LEAP_DAYS,
    QC_YEARS, C_YEARS, Q_YEARS, BASE_YEAR, MAX_YEAR, MONTH_COUNT, MONTH_OFFSET,
    LEAP_MONTH_LENGTH, NONLEAP_MONTH_LENGTH]
  by_cases h1 : y ≤ 1200 ∨ m < 1 ∨ d < 1
  · rw [if_pos h1, if_pos h1]
  · rw [if_neg h1, if_neg h1]
    by_cases h2 : y > 9999 ∨ m > 12
    · rw [if_pos h2, if_pos h2]
    · rw [if_neg h2, if_neg h2]
      simp only [wrap32_id (d - 1) (by omega) (by omega)]
      simp only [wrap32_id (m - 1 - 2) (by omega) (by omega)]
      by_cases hm0 : m - 1 - 2 < 0
      · simp only [if_pos hm0]
        simp only [wrap32_id (y - 1) (by omega) (by omega)]
        simp only [wrap32_id (m - 1 - 2 + 12) (by omega) (by omega)]
        rw [monthLength_eq (m - 1 - 2 + 12) (by omega) (by omega)]
        simp only []
        have hmemA := cumDays_mem (m - 1 - 2 + 12) (by omega) (by omega)
        by_cases hml : mlen (m - 1 - 2 + 12) = 0
        · simp only [if_pos hml]
          simp only [wrap32_id (y - 1 + 1) (by omega) (by omega)]
          rw [isLeapYear32_eq]
          rw [isLeapYear_eq (y - 1 + 1) (by omega)]
          simp only []
          set L := (if (decide ((y - 1 + 1) % 400 = 0) ||
              (decide ((y - 1 + 1) % 4 = 0) && decide ((y - 1 + 1) % 100 ≠ 0))) = true
            then (29 : Int) else 28) with hL
          have hLb : L = 28 ∨ L = 29 := by
            rw [hL]
            split_ifs <;> omega
          by_cases hdom : d - 1 ≥ L
          · simp only [if_pos hdom]
          · simp only [if_neg hdom]
            simp only [wrap32_id (y - 1 - 1200) (by omega) (by omega)]
            simp only [wrap32_id ((y - 1 - 1200) / 400) (by omega) (by omega)]
            simp only [wrap32_id ((y - 1 - 1200) % 400) (by omega) (by omega)]
            simp only [wrap32_id ((y - 1 - 1200) % 400 / 100) (by omega) (by omega)]
            simp only [wrap32_id ((y - 1 - 1200) % 400 % 100) (by omega) (by omega)]
            simp only [wrap32_id ((y - 1 - 1200) % 400 % 100 / 4) (by omega) (by omega)]
            simp only [wrap32_id ((y - 1 - 1200) % 400 % 100 % 4) (by omega) (by omega)]
            set os := (y - 1 - 1200) / 400 * 146097 + (y - 1 - 1200) % 400 / 100 * 36524 +
              (y - 1 - 1200) % 400 % 100 / 4 * 1461 + (y - 1 - 1200) % 400 % 100 % 4 * 365
              with hos
            simp only [wrap32_id os (by rw [hos]; omega) (by rw [hos]; omega)]
            rw [sumMonthsBefore32_eq (Int.toNat (m - 1 - 2 + 12)) (by omega)]
            rw [sumMonthsBefore_eq (m - 1 - 2 + 12) (by omega) (by omega)]
            simp only []
            simp only [wrap32_id (os + cumDays (m - 1 - 2 + 12)) (by rw [hos]; omega)
              (by rw [hos]; omega)]
            simp only [wrap32_id (os + cumDays (m - 1 - 2 + 12) + (d - 1)) (by rw [hos]; omega)
              (by rw [hos]; omega)]
            simp only [wrap32_id (os + cumDays (m - 1 - 2 + 12) + (d - 1) - 139750)
              (by rw [hos]; omega) (by rw [hos]; omega)]
        · simp only [if_neg hml]
          by_cases hdom : d - 1 ≥ mlen (m - 1 - 2 + 12)
          · simp only [if_pos hdom]
          · simp only [if_neg hdom]
            simp only [wrap32_id (y - 1 - 1200) (by omega) (by omega)]
            simp only [wrap32_id ((y - 1 - 1200) / 400) (by omega) (by omega)]
            simp only [wrap32_id ((y - 1 - 1200) % 400) (by omega) (by omega)]
            simp only [wrap32_id ((y - 1 - 1200) % 400 / 100) (by omega) (by omega)]
            simp only [wrap32_id ((y - 1 - 1200) % 400 % 100) (by omega) (by omega)]
            simp only [wrap32_id ((y - 1 - 1200) % 400 % 100 / 4) (by omega) (by omega)]
            simp only [wrap32_id ((y - 1 - 1200) % 400 % 100 % 4) (by omega) (by omega)]
            set os := (y - 1 - 1200) / 400 * 146097 + (y - 1 - 1200) % 400 / 100 * 36524 +
              (y - 1 - 1200) % 400 % 100 / 4 * 1461 + (y - 1 - 1200) % 400 % 100 % 4 * 365
              with hos
            simp only [wrap32_id os (by rw [hos]; omega) (by rw [hos]; omega)]
            rw [sumMonthsBefore32_eq (Int.toNat (m - 1 - 2 + 12)) (by omega)]
            rw [sumMonthsBefore_eq (m - 1 - 2 + 12) (by omega) (by omega)]
            simp only []
            simp only [wrap32_id (os + cumDays (m - 1 - 2 + 12)) (by rw [hos]; omega)
              (by rw [hos]; omega)]
            simp only [wrap32_id (os + cumDays (m - 1 - 2 + 12) + (d - 1)) (by rw [hos]; omega)
              (by rw [hos]; omega)]
            simp only [wrap32_id (os + cumDays (m - 1 - 2 + 12) + (d - 1) - 139750)
              (by rw [hos]; omega) (by rw [hos]; omega)]
      · simp only [if_neg hm0]
        rw [monthLength_eq (m - 1 - 2) (by omega) (by omega)]
        simp only []
        have hmemA := cumDays_mem (m - 1 - 2) (by omega) (by omega)
        have hml : ¬ mlen (m - 1 - 2) = 0 := by omega
        simp only [if_neg hml]
        by_cases hdom : d - 1 ≥ mlen (m - 1 - 2)
        · simp only [if_pos hdom]
        · simp only [if_neg hdom]
          simp only [wrap32_id (y - 1200) (by omega) (by omega)]
          simp only [wrap32_id ((y - 1200) / 400) (by omega) (by omega)]
          simp only [wrap32_id ((y - 1200) % 400) (by omega) (by omega)]
          simp only [wrap32_id ((y - 1200) % 400 / 100) (by omega) (by omega)]
          simp only [wrap32_id ((y - 1200) % 400 % 100) (by omega) (by omega)]
          simp only [wrap32_id ((y - 1200) % 400 % 100 / 4) (by omega) (by omega)]
          simp only [wrap32_id ((y - 1200) % 400 % 100 % 4) (by omega) (by omega)]
          set os := (y - 1200) / 400 * 146097 + (y - 1200) % 400 / 100 * 36524 +
            (y - 1200) % 400 % 100 / 4 * 1461 + (y - 1200) % 400 % 100 % 4 * 365 with hos
          simp only [wrap32_id os (by rw [hos]; omega) (by rw [hos]; omega)]
          rw [sumMonthsBefore32_eq (Int.toNat (m - 1 - 2)) (by omega)]
          rw [sumMonthsBefore_eq (m - 1 - 2) (by omega) (by omega)]
          simp only []
          simp only [wrap32_id (os + cumDays (m - 1 - 2)) (by rw [hos]; omega)
            (by rw [hos]; omega)]
          simp only [wrap32_id (os + cumDays (m - 1 - 2) + (d - 1)) (by rw [hos]; omega)
            (by rw [hos]; omega)]
          simp only [wrap32_id (os + cumDays (m - 1 - 2) + (d - 1) - 139750)
            (by rw [hos]; omega) (by rw [hos]; omega)]

/-- C10: on every in-range input all intermediate arithmetic stays within
int32, so each conversion computed with 32-bit wraparound stores
coincides with the conversion computed with exact unbounded integers. -/
theorem claim_C10 :
    (∀ o : Int, grcal_offsetToDate32 o = grcal_offsetToDate o) ∧
    (∀ y m d : Int, -2147483648 ≤ y → y < 2147483648 → -2147483648 ≤ m →
      m < 2147483648 → -2147483648 ≤ d → d < 2147483648 →
      grcal_dateToOffset32 y m d = grcal_dateToOffset y m d) :=
  ⟨otd32_eq, dto32_eq⟩

/-- Witness for C10 at 2024-02-29. -/
theorem claim_C10_witness :
    grcal_dateToOffset32 2024 2 29 = grcal_dateToOffset 2024 2 29 :=
  claim_C10.2 2024 2 29 (by decide) (by decide) (by decide) (by decide)
    (by decide) (by decide)


end Grcal
